import Mathlib

/-
Verification of the incremental view-synchronization engine of the
multiverse TUI client, plus the dehydrated-devices module.

The definitions below are a shallow embedding of the Rust source:
  - labs/multiverse/src/main.rs   (App, StatefulList, listen task, shutdown)
  - crates/matrix-sdk/src/encryption/dehydrated_devices/mod.rs

Conventions: room identifiers are an abstract type with decidable equality
(instantiated with Nat in concrete statements); HashMap values irrelevant to
the verified properties are dropped, so a map is represented by its key list
(membership is all the source consults); tokio tasks are modelled by the
data they produce and an explicit crashed flag, a panic inside a spawned
task killing that task but not the process; time is a discrete Nat clock, in
seconds, so the 4-second status expiry is deadline now + 4.
-/

/-! ## StatefulList (main.rs 693-741)

The source methods read only the length of the locked item vector and the
ratatui selection state. We embed them as pure functions from the item count
and the current selection to the new selection together with the returned
value (the source returns Some(new index) exactly when a meaningful change
happened, None otherwise). -/

/-- Embedding of StatefulList::next (main.rs 697-716): select the next item
with wraparound; the second component is the returned value, some index on a
meaningful change, none otherwise. -/
def StatefulList.next (num_items : Nat) (state : Option Nat) :
    Option Nat × Option Nat :=
  -- If there is no item to select, leave early: select(None), return None.
  if num_items = 0 then (none, none)
  else
    let prev := state
    let new := match prev with
      | none => 0
      | some i => if num_items - 1 ≤ i then 0 else i + 1
    if prev ≠ some new then (some new, some new) else (state, none)

/-- Embedding of StatefulList::previous (main.rs 721-740): select the
previous item with wraparound; second component as in StatefulList.next. -/
def StatefulList.previous (num_items : Nat) (state : Option Nat) :
    Option Nat × Option Nat :=
  if num_items = 0 then (none, none)
  else
    let prev := state
    let new := match prev with
      | none => 0
      | some i => if i = 0 then num_items - 1 else i - 1
    if prev ≠ some new then (some new, some new) else (state, none)

/-- The selection after one call to StatefulList::next, ignoring the
returned value. -/
def next_state (num_items : Nat) (state : Option Nat) : Option Nat :=
  (StatefulList.next num_items state).1

/-! ## Ephemeral status notifier (main.rs 274-289)

App::set_status_message aborts the previous clear task, stores the new
message, and spawns a fresh task clearing the message 4 seconds later. We
model the single outstanding clear task by its deadline: aborting it drops
the deadline, and the task firing at time t clears the message when its
deadline has been reached and the task was not aborted. -/

/-- The mutable status fields of App: last_status_message, and the pending
clear task represented by its wake-up deadline (none when no task is
outstanding or the task was aborted). -/
structure StatusState where
  last_status_message : Option String
  clear_status_message : Option Nat
  deriving DecidableEq

/-- Embedding of App::set_status_message (main.rs 274-289) called at time
now: abort the previous clear task, store the message, spawn a clear task
with deadline now + 4. -/
def App.set_status_message (now : Nat) (status : String) (_st : StatusState) :
    StatusState :=
  { last_status_message := some status, clear_status_message := some (now + 4) }

/-- The still-pending clear task runs at time t: after its 4-second sleep
has elapsed (deadline reached) it sets the message to none; before that, or
when no task is pending, nothing happens. -/
def clear_task_fires (t : Nat) (st : StatusState) : StatusState :=
  match st.clear_status_message with
  | some d =>
      if d ≤ t then { last_status_message := none, clear_status_message := none }
      else st
  | none => st

/-! ## Diff streams and their consumers (main.rs 179-192, 232-239)

The listen task drains the room-list stream; each received message is a
batch (Vec) of diffs, applied to the shared room vector one after the other
in the loop `for diff in diffs { diff.apply(&mut rooms) }`. Each timeline
task drains its own stream whose messages carry a single diff each. Both
are sequential folds; the diff semantics stays a parameter here. -/

/-- Applying one received batch of diffs: the inner for-loop of the listen
task, folding the diffs over the container in order. -/
def apply_batch {σ δ : Type} (applyDiff : δ → σ → σ) (s : σ) (batch : List δ) : σ :=
  batch.foldl (fun acc d => applyDiff d acc) s

/-- The listen task consuming its stream: the received batches are applied
to the shared container strictly in receipt order. -/
def listen_stream {σ δ : Type} (applyDiff : δ → σ → σ) (s : σ)
    (batches : List (List δ)) : σ :=
  batches.foldl (apply_batch applyDiff) s

/-- A timeline task consuming its stream: one diff per received message,
applied in receipt order. -/
def timeline_stream {σ δ : Type} (applyDiff : δ → σ → σ) (s : σ)
    (diffs : List δ) : σ :=
  diffs.foldl (fun acc d => applyDiff d acc) s

/-! ## Concrete diff application (external VectorDiff, spec section 3 and 7)

The concrete `diff.apply` called at main.rs 184 and 237 lives in the
eyeball-im crate, outside this repository. -/

/-- Modelled from the spec: the structural diff operations over an ordered
container (glossary: insert/remove/replace/push/clear/reset; section 3:
insert-at, remove-at, replace-at, push-back, clear, reset-to). -/
inductive VectorDiff (α : Type) where
  | insert (index : Nat) (value : α)
  | remove (index : Nat)
  | set (index : Nat) (value : α)
  | pushBack (value : α)
  | clear
  | reset (values : List α)
  deriving DecidableEq

/-- Modelled from the spec: applying one diff to the container; per spec
section 7 the sampled diff application treats an out-of-range index as an
unrecoverable fault (a panic), returned here as none. -/
def VectorDiff.apply {α : Type} (d : VectorDiff α) (v : List α) :
    Option (List α) :=
  match d with
  | .insert i x => if i ≤ v.length then some (v.take i ++ x :: v.drop i) else none
  | .remove i => if i < v.length then some (v.take i ++ v.drop (i + 1)) else none
  | .set i x => if i < v.length then some (v.take i ++ x :: v.drop (i + 1)) else none
  | .pushBack x => some (v ++ [x])
  | .clear => some []
  | .reset xs => some xs

/-- The listen task applying one received batch with the concrete diff
semantics (main.rs 183-185): the diffs are applied in order, in place; a
panicking application unwinds the consumer task, leaving the container with
the mutations already committed (the Bool is false when the task crashed). -/
def apply_diff_batch {α : Type} (v : List α) :
    List (VectorDiff α) → List α × Bool
  | [] => (v, true)
  | d :: rest =>
    match d.apply v with
    | some v2 => apply_diff_batch v2 rest
    | none => (v, false)

/-! ## The listen task room-discovery round (main.rs 198-248)

After applying a batch, the listen task collects the room ids resolvable
from the entry list, clones the previous ui_rooms map, and initializes
every room id absent from that clone: resolve its Room, get the default
timeline builder, initialize the timeline, then spawn the timeline task and
record the room. Resolve and builder failures log and continue; after an
init_timeline_with_builder failure the source logs and falls through to
ui_room.timeline().unwrap(). -/

/-- Outcomes of the three fallible external calls made for one new room id:
room resolution (main.rs 208), default_room_timeline_builder (214), and
init_timeline_with_builder (222). -/
structure RoomSetup where
  resolveOk : Bool
  builderOk : Bool
  initOk : Bool
  deriving DecidableEq

/-- Modelled from the spec: the conversation handle exposes
timeline() -> Option TimelineHandle (section 6), present exactly when the
timeline was initialized, so after a failed init_timeline there is no
timeline handle. -/
def Room.timeline (initSucceeded : Bool) : Option Unit :=
  if initSucceeded then some () else none

/-- What the body of the new-room loop (main.rs 204-245) does for one room
id: skip it on a resolution or builder failure (continue), spawn its
timeline task and record it when everything succeeds, and crash the listen
task when init_timeline_with_builder fails, because the source then calls
ui_room.timeline().unwrap() on a missing timeline. -/
inductive RoomOutcome where
  | skipped
  | added
  | crashed
  deriving DecidableEq

/-- One iteration of the new-room loop (main.rs 204-245). -/
def initRoom (s : RoomSetup) : RoomOutcome :=
  if s.resolveOk = false then .skipped
  else if s.builderOk = false then .skipped
  else
    match Room.timeline s.initOk with
    | none => .crashed
    | some _ => .added

/-- The whole new-room loop over the fresh room ids, in list order: returns
the rooms that were added (each one had its timeline task spawned and was
pushed to new_timelines and inserted into new_ui_rooms) and whether the
loop ran to completion (false: it panicked, dropping the rooms after the
crash point and never reaching the map extension). -/
def room_loop {ρ : Type} (setup : ρ → RoomSetup) : List ρ → List ρ × Bool
  | [] => ([], true)
  | r :: rest =>
    match initRoom (setup r) with
    | .skipped => room_loop setup rest
    | .added =>
      let p := room_loop setup rest
      (r :: p.1, p.2)
    | .crashed => ([], false)

/-- The listen-task state threaded between diff rounds: the key list of the
ui_rooms map, the multiset of room ids for which a timeline task was ever
spawned (in spawn order), and whether the task is still alive. -/
structure ListenState (ρ : Type) where
  ui_rooms : List ρ
  spawned : List ρ
  alive : Bool

/-- The listen-task state before the first diff round. -/
def ListenState.initial (ρ : Type) : ListenState ρ :=
  { ui_rooms := [], spawned := [], alive := true }

/-- One diff round of the listen task (main.rs 179-249) restricted to room
discovery: all_rooms is the list of room ids resolvable from the entry
vector after the diffs of this round were applied. The fresh ids are those
absent from the previous ui_rooms map (cloned before the loop, main.rs
198); on a clean loop the new rooms are merged into the maps in one batch
(main.rs 247-248), on a panic the merge never happens and the task dies,
but the timeline tasks spawned before the crash point are already running. -/
def listen_round {ρ : Type} [DecidableEq ρ] (setup : ρ → RoomSetup)
    (st : ListenState ρ) (all_rooms : List ρ) : ListenState ρ :=
  if st.alive then
    let fresh := all_rooms.filter (fun r => !st.ui_rooms.contains r)
    let p := room_loop setup fresh
    if p.2 then
      { ui_rooms := st.ui_rooms ++ p.1, spawned := st.spawned ++ p.1, alive := true }
    else
      { ui_rooms := st.ui_rooms, spawned := st.spawned ++ p.1, alive := false }
  else st

/-! ## Shutdown sequence (App::run, main.rs 381-407)

After the render loop returns, App::run spawns a task waiting for the sync
service state to leave Running, awaits sync_service.stop(), aborts the
listen task, aborts every timeline task, and finally awaits the waiter
task. We record the awaited operations of the run body in program order. -/

/-- The externally observable steps of the quit path, for timeline ids of
type ρ. -/
inductive ShutdownEvent (ρ : Type) where
  | spawnStateWaiter
  | stopSyncService
  | abortListenTask
  | abortTimelineTask (room : ρ)
  | awaitStateWaiter
  deriving DecidableEq

/-- The quit-path trace of App::run (main.rs 389-403) given the room ids
holding a timeline at shutdown, in program order. -/
def shutdown_trace {ρ : Type} (timeline_ids : List ρ) : List (ShutdownEvent ρ) :=
  [ShutdownEvent.spawnStateWaiter, ShutdownEvent.stopSyncService,
   ShutdownEvent.abortListenTask]
  ++ timeline_ids.map ShutdownEvent.abortTimelineTask
  ++ [ShutdownEvent.awaitStateWaiter]

/-- a occurs strictly before b in the list l (at positions i < j). -/
def precedes {α : Type} (l : List α) (a b : α) : Prop :=
  ∃ i j, i < j ∧ l.get? i = some a ∧ l.get? j = some b

/-! ## Mark-as-read and the render loop (main.rs 292-315, 339-379)

App::mark_as_read resolves the selected entry to a room of the ui_rooms
map; when found it awaits the external mark_as_read call, propagating a
failure with the ? operator, and on success installs a status message
reporting whether a receipt was sent; when no room resolves it installs the
missing-room status message. The render loop dispatches it on the m key in
read-receipts mode with `self.mark_as_read().await?`, so a returned error
ends the loop; the S key awaits sync_service.stop() with ? likewise. Rooms
held in ui_rooms were stored together with their timeline, so the
timeline().unwrap() at main.rs 304 is total here. -/

/-- The selected room id, resolved as in main.rs 293-301: the selected
index, looked up in the entry vector, its as_room_id, then required to be a
key of ui_rooms (entries hold some id when Filled). -/
def resolve_selected (sel : Option Nat) (entries : List (Option Nat))
    (ui_rooms : List Nat) : Option Nat :=
  match sel with
  | none => none
  | some i =>
    match entries.get? i with
    | some (some r) => if ui_rooms.contains r then some r else none
    | _ => none

/-- The status text of main.rs 306-309 for a mark_as_read result. -/
def read_receipt_message (did : Bool) : String :=
  ("did ") ++ (if did then ("") else ("not ")) ++ ("send a read receipt!")

/-- Embedding of App::mark_as_read (main.rs 292-315) called at time now,
with the outcome of the external timeline mark_as_read call passed in:
a failing external call propagates through the ? operator; otherwise a
status message is installed and ok is returned. -/
def App.mark_as_read (now : Nat) (sel : Option Nat)
    (entries : List (Option Nat)) (ui_rooms : List Nat)
    (ext_mark_as_read : Except String Bool) (st : StatusState) :
    Except String StatusState :=
  match resolve_selected sel entries ui_rooms with
  | some _ =>
    match ext_mark_as_read with
    | .error e => .error e
    | .ok did => .ok (App.set_status_message now (read_receipt_message did) st)
  | none => .ok (App.set_status_message now ("missing room or nothing to show") st)

/-- The keys of the render loop relevant to command dispatch. -/
inductive KeyPress where
  | keyQ
  | keyM
  | keyStopSync
  | keyOther
  deriving DecidableEq

/-- The details-view mode (main.rs 108-114). -/
inductive DetailsMode where
  | ReadReceipts
  | TimelineItems
  deriving DecidableEq

/-- The fate of one render-loop iteration (main.rs 339-379): quit exits
with ok; an error returned by a dispatched command exits the loop with that
error through the ? operator; otherwise the loop continues with the
possibly updated status state. -/
inductive IterationResult where
  | exitOk
  | exitErr (e : String)
  | continueLoop (st : StatusState)
  deriving DecidableEq

/-- One key dispatch of the render loop (main.rs 344-374), restricted to
quit, mark-as-read and stop-synchronization. -/
def render_loop_iteration (key : KeyPress) (mode : DetailsMode) (now : Nat)
    (sel : Option Nat) (entries : List (Option Nat)) (ui_rooms : List Nat)
    (ext_mark_as_read : Except String Bool) (ext_stop : Except String Unit)
    (st : StatusState) : IterationResult :=
  match key with
  | .keyQ => .exitOk
  | .keyStopSync =>
    match ext_stop with
    | .error e => .exitErr e
    | .ok _ => .continueLoop st
  | .keyM =>
    if mode = DetailsMode.ReadReceipts then
      match App.mark_as_read now sel entries ui_rooms ext_mark_as_read st with
      | .error e => .exitErr e
      | .ok st2 => .continueLoop st2
    else .continueLoop st
  | .keyOther => .continueLoop st

/-! ## DehydratedDevices::create (dehydrated_devices/mod.rs 29-42)

create unwraps the olm machine, the freshly created dehydrated device and
its upload request, sends the upload request with
`let _ = self.client.send(req.clone(), None).await;` and returns the
request. The three unwraps are modelled as Option (none is the panic); the
send outcome is a function parameter whose value is bound and dropped
exactly as in the source. -/

/-- Embedding of DehydratedDevices::create: olm_machine is the unwrapped
machine presence, create_device the unwrapped device, keys_for_upload the
unwrapped upload request built for a device, and send the outcome of the
server upload for a request. -/
def DehydratedDevices.create (olm_machine : Option Unit)
    (create_device : Option Nat) (keys_for_upload : Nat → Option Nat)
    (send : Nat → Except String Unit) : Option Nat :=
  match olm_machine with
  | none => none
  | some _ =>
    match create_device with
    | none => none
    | some d =>
      match keys_for_upload d with
      | none => none
      | some req =>
        let _ := send req
        some req

/-! # Theorems -/

/-! ## Helper lemmas -/

/-- One next step from a valid selection is the cyclic successor mod n. -/
theorem next_state_some (n i : Nat) (h1 : 0 < n) (h2 : i < n) :
    next_state n (some i) = some ((i + 1) % n) := by
  have hn : ¬ n = 0 := Nat.pos_iff_ne_zero.mp h1
  have hnew : (if n - 1 ≤ i then 0 else i + 1) = (i + 1) % n := by
    by_cases hc : n - 1 ≤ i
    · have hi : i + 1 = n := by omega
      simp [hc, hi, Nat.mod_self]
    · have hlt : i + 1 < n := by omega
      simp [hc, Nat.mod_eq_of_lt hlt]
  simp only [next_state, StatefulList.next, if_neg hn, hnew]
  by_cases he : (some i : Option Nat) = some ((i + 1) % n)
  · simp [he]
  · simp [he]

/-- Iterating next k times from a valid selection lands on (i + k) mod n. -/
theorem next_state_iterate (n i : Nat) (h1 : 0 < n) (h2 : i < n) :
    ∀ k, (next_state n)^[k] (some i) = some ((i + k) % n) := by
  intro k
  induction k with
  | zero => simp [Nat.mod_eq_of_lt h2]
  | succ k ih =>
    rw [Function.iterate_succ_apply', ih,
      next_state_some n _ h1 (Nat.mod_lt _ h1)]
    have hmod : ((i + k) % n + 1) % n = (i + k + 1) % n :=
      Nat.ModEq.add_right 1 (Nat.mod_modEq (i + k) n)
    rw [hmod, Nat.add_assoc]

/-! ## Claim theorems -/

/-- C1: on every diff stream the consumer is a sequential fold: for two
batches B1 received before B2, the container ends at
apply(apply(initial, B1), B2), each batch applied completely and in receipt
order; likewise for two single-diff messages of a timeline stream, and in
general consuming a concatenation of batch sequences factors through the
intermediate state. -/
theorem c1_diffs_applied_in_receipt_order {σ δ : Type}
    (applyDiff : δ → σ → σ) (init : σ) (B1 B2 : List δ) (d1 d2 : δ) :
    listen_stream applyDiff init [B1, B2]
      = apply_batch applyDiff (apply_batch applyDiff init B1) B2
  ∧ timeline_stream applyDiff init [d1, d2] = applyDiff d2 (applyDiff d1 init)
  ∧ ∀ (bs1 bs2 : List (List δ)),
      listen_stream applyDiff init (bs1 ++ bs2)
        = listen_stream applyDiff (listen_stream applyDiff init bs1) bs2 := by
  refine ⟨rfl, rfl, fun bs1 bs2 => ?_⟩
  simp [listen_stream, List.foldl_append]

/-- C4: set_message(A) at t1 then set_message(B) at t2 before the expiry
of A installs exactly B, the only pending clear deadline is the one of B,
no clear fires strictly before t2 + 4 (in particular the aborted timer of
A never clears B), and once the full window of B elapses the message is
none. -/
theorem c4_status_last_write_wins (t1 t2 t : Nat) (A B : String)
    (s0 : StatusState) (h1 : t1 ≤ t2) (h2 : t2 < t1 + 4) (h3 : t < t2 + 4) :
    (App.set_status_message t2 B
        (App.set_status_message t1 A s0)).last_status_message = some B
  ∧ (App.set_status_message t2 B
        (App.set_status_message t1 A s0)).clear_status_message = some (t2 + 4)
  ∧ (clear_task_fires t (App.set_status_message t2 B
        (App.set_status_message t1 A s0))).last_status_message = some B
  ∧ (clear_task_fires (t2 + 4) (App.set_status_message t2 B
        (App.set_status_message t1 A s0))).last_status_message = none := by
  refine ⟨rfl, rfl, ?_, ?_⟩
  · simp only [App.set_status_message, clear_task_fires]
    rw [if_neg (by omega)]
  · simp [App.set_status_message, clear_task_fires]

/-- Witness for C4 at the scenario of spec section 8: set at 0, superseded
at 1, probed at 2, expired at 5. -/
theorem c4_status_last_write_wins_witness :
    (0 : Nat) ≤ 1 ∧ 1 < 0 + 4 ∧ 2 < 1 + 4
  ∧ ((App.set_status_message 1 ("sync error")
        (App.set_status_message 0 ("saved")
          ⟨none, none⟩)).last_status_message = some ("sync error")
     ∧ (App.set_status_message 1 ("sync error")
          (App.set_status_message 0 ("saved")
            ⟨none, none⟩)).clear_status_message = some (1 + 4)
     ∧ (clear_task_fires 2 (App.set_status_message 1 ("sync error")
          (App.set_status_message 0 ("saved")
            ⟨none, none⟩))).last_status_message = some ("sync error")
     ∧ (clear_task_fires (1 + 4) (App.set_status_message 1 ("sync error")
          (App.set_status_message 0 ("saved")
            ⟨none, none⟩))).last_status_message = none) :=
  ⟨by decide, by decide, by decide,
    c4_status_last_write_wins 0 1 2 ("saved") ("sync error") ⟨none, none⟩
      (by decide) (by decide) (by decide)⟩

/-- C5 (code bug): an out-of-range diff operation is not reported and
refused; applying the batch [pushBack 7, remove 5] to an empty container
panics the consumer task mid-batch (second component false), with the
partial mutation [7] already committed, so the state is neither refused
nor left unchanged. -/
theorem c5_out_of_range_diff_crashes_consumer :
    apply_diff_batch ([] : List Nat)
      [VectorDiff.pushBack 7, VectorDiff.remove 5] = ([7], false) := by
  decide

/-- C6 (code bug): for a newly discovered room whose
init_timeline_with_builder call fails, the new-room loop crashes the listen
task (timeline().unwrap() on none) instead of continuing without a
timeline; the resolve-failure and builder-failure paths do skip and
continue. -/
theorem c6_init_timeline_failure_panics :
    initRoom ⟨true, true, false⟩ = RoomOutcome.crashed
  ∧ initRoom ⟨true, false, true⟩ = RoomOutcome.skipped
  ∧ initRoom ⟨false, true, true⟩ = RoomOutcome.skipped := by
  decide

/-- C8: on a list of length n with selected index i, n calls to focus_next
return the selection to i; on length 0, next and previous report no change
and leave the selection at none. -/
theorem c8_focus_next_wraparound (n i : Nat) (s : Option Nat)
    (h1 : 0 < n) (h2 : i < n) :
    (next_state n)^[n] (some i) = some i
  ∧ StatefulList.next 0 s = (none, none)
  ∧ StatefulList.previous 0 s = (none, none) := by
  refine ⟨?_, ?_, ?_⟩
  · rw [next_state_iterate n i h1 h2 n, Nat.add_mod_right, Nat.mod_eq_of_lt h2]
  · simp [StatefulList.next]
  · simp [StatefulList.previous]

/-- Witness for C8 on a three-element list selected at 1, with a stale
selection cleared on the empty list. -/
theorem c8_focus_next_wraparound_witness :
    0 < 3 ∧ 1 < 3
  ∧ ((next_state 3)^[3] (some 1) = some 1
     ∧ StatefulList.next 0 (some 5) = (none, none)
     ∧ StatefulList.previous 0 (some 5) = (none, none)) :=
  ⟨by decide, by decide,
    c8_focus_next_wraparound 3 1 (some 5) (by decide) (by decide)⟩

/-- C9 (counterexample): on a single-element list with no prior selection,
focus_next and focus_previous select index 0 and return some 0, a reported
meaningful change, contradicting that every call reports no change
regardless of the prior selection state. -/
theorem c9_single_element_reports_change :
    StatefulList.next 1 none = (some 0, some 0)
  ∧ StatefulList.previous 1 none = (some 0, some 0) := by
  decide

/-- C9 (amended): on an empty list next and previous clear the selection
and report no change; on a single-element list they reselect the element
and report no change when it is already selected, and select it while
reporting a change when nothing was selected. -/
theorem c9_amended_empty_and_single (s : Option Nat) :
    StatefulList.next 0 s = (none, none)
  ∧ StatefulList.previous 0 s = (none, none)
  ∧ StatefulList.next 1 (some 0) = (some 0, none)
  ∧ StatefulList.previous 1 (some 0) = (some 0, none)
  ∧ StatefulList.next 1 none = (some 0, some 0)
  ∧ StatefulList.previous 1 none = (some 0, some 0) := by
  refine ⟨?_, ?_, by decide, by decide, by decide, by decide⟩
  · simp [StatefulList.next]
  · simp [StatefulList.previous]

/-- C10: whenever the unwrapped olm machine, device and upload request are
available, create returns the constructed upload request, and its result
does not depend on the outcome of the server upload, which is discarded. -/
theorem c10_create_discards_upload_outcome (olm : Option Unit)
    (dev : Option Nat) (keys : Nat → Option Nat)
    (send1 send2 : Nat → Except String Unit) (d req : Nat)
    (h1 : olm = some ()) (h2 : dev = some d) (h3 : keys d = some req) :
    DehydratedDevices.create olm dev keys send1 = some req
  ∧ DehydratedDevices.create olm dev keys send1
      = DehydratedDevices.create olm dev keys send2 := by
  subst h1 h2
  simp [DehydratedDevices.create, h3]

/-- Witness for C10: a failing upload and a succeeding upload both leave
create returning the request. -/
theorem c10_create_discards_upload_outcome_witness :
    (some () : Option Unit) = some () ∧ (some 4 : Option Nat) = some 4
  ∧ (fun _ : Nat => some 9) 4 = some 9
  ∧ (DehydratedDevices.create (some ()) (some 4) (fun _ => some 9)
        (fun _ => Except.error ("upload failed")) = some 9
     ∧ DehydratedDevices.create (some ()) (some 4) (fun _ => some 9)
          (fun _ => Except.error ("upload failed"))
        = DehydratedDevices.create (some ()) (some 4) (fun _ => some 9)
            (fun _ => Except.ok ())) :=
  ⟨rfl, rfl, rfl,
    c10_create_discards_upload_outcome (some ()) (some 4) (fun _ => some 9)
      (fun _ => Except.error ("upload failed")) (fun _ => Except.ok ())
      4 9 rfl rfl rfl⟩

/-- C7 (counterexample): a failing external mark-as-read call is not
surfaced as a status message; it propagates through the ? operator and
terminates the render loop with the error. -/
theorem c7_mark_as_read_failure_exits_loop :
    render_loop_iteration KeyPress.keyM DetailsMode.ReadReceipts 0 (some 0)
      [some 3] [3] (Except.error ("http failure")) (Except.ok ())
      ⟨none, none⟩
    = IterationResult.exitErr ("http failure") := by
  decide

/-- C7 (amended): when the selection resolves to a known room, a failing
external mark-as-read call (and a failing stop-synchronization call)
propagates out of the render loop as a fatal error; only the success report
and the missing-room case surface through the status notifier. -/
theorem c7_amended_command_failures_fatal (now : Nat) (sel : Option Nat)
    (entries : List (Option Nat)) (ui_rooms : List Nat) (rm : Nat)
    (e : String) (did : Bool) (mark_res : Except String Bool)
    (stop_res : Except String Unit) (mode : DetailsMode) (st : StatusState)
    (h : resolve_selected sel entries ui_rooms = some rm) :
    render_loop_iteration KeyPress.keyM DetailsMode.ReadReceipts now sel
      entries ui_rooms (Except.error e) stop_res st
      = IterationResult.exitErr e
  ∧ render_loop_iteration KeyPress.keyStopSync mode now sel entries ui_rooms
      mark_res (Except.error e) st = IterationResult.exitErr e
  ∧ render_loop_iteration KeyPress.keyM DetailsMode.ReadReceipts now sel
      entries ui_rooms (Except.ok did) stop_res st
      = IterationResult.continueLoop
          (App.set_status_message now (read_receipt_message did) st)
  ∧ App.mark_as_read now sel entries ui_rooms (Except.error e) st
      = Except.error e := by
  refine ⟨?_, rfl, ?_, ?_⟩ <;>
    simp [render_loop_iteration, App.mark_as_read, h]

/-- Witness for C7 with a selected, resolvable room. -/
theorem c7_amended_command_failures_fatal_witness :
    resolve_selected (some 0) [some 3] [3] = some 3
  ∧ (render_loop_iteration KeyPress.keyM DetailsMode.ReadReceipts 0 (some 0)
        [some 3] [3] (Except.error ("boom")) (Except.ok ()) ⟨none, none⟩
        = IterationResult.exitErr ("boom")
     ∧ render_loop_iteration KeyPress.keyStopSync DetailsMode.TimelineItems 0
          (some 0) [some 3] [3] (Except.ok true) (Except.error ("boom"))
          ⟨none, none⟩ = IterationResult.exitErr ("boom")
     ∧ render_loop_iteration KeyPress.keyM DetailsMode.ReadReceipts 0 (some 0)
          [some 3] [3] (Except.ok true) (Except.ok ()) ⟨none, none⟩
          = IterationResult.continueLoop
              (App.set_status_message 0 (read_receipt_message true)
                ⟨none, none⟩)
     ∧ App.mark_as_read 0 (some 0) [some 3] [3] (Except.error ("boom"))
          ⟨none, none⟩ = Except.error ("boom")) :=
  ⟨rfl,
    c7_amended_command_failures_fatal 0 (some 0) [some 3] [3] 3 ("boom") true
      (Except.ok true) (Except.ok ()) DetailsMode.TimelineItems ⟨none, none⟩
      rfl⟩

/-- C3 (counterexample): on the quit path with one open timeline, the await
of the state waiter does not precede the abort of the listen task; the
aborts happen first. -/
theorem c3_wait_does_not_precede_aborts :
    ¬ precedes (shutdown_trace ([0] : List Nat))
        ShutdownEvent.awaitStateWaiter ShutdownEvent.abortListenTask := by
  rintro ⟨i, j, hij, hi, hj⟩
  have htr : shutdown_trace ([0] : List Nat)
      = [ShutdownEvent.spawnStateWaiter, ShutdownEvent.stopSyncService,
         ShutdownEvent.abortListenTask, ShutdownEvent.abortTimelineTask 0,
         ShutdownEvent.awaitStateWaiter] := rfl
  rw [htr] at hi hj
  rcases i with _ | _ | _ | _ | _ | i
  · cases hi
  · cases hi
  · cases hi
  · cases hi
  · rcases j with _ | _ | _ | _ | _ | j
    · omega
    · omega
    · omega
    · omega
    · omega
    · simp [List.get?] at hj
  · simp [List.get?] at hi

/-- C3 (amended): the quit path signals the synchronization service to stop
before cancelling the listen task and every timeline task, and the wait for
the service state to leave Running completes only after all those
cancellations, not before. -/
theorem c3_amended_stop_before_aborts_before_wait (ids : List Nat) (r : Nat)
    (hr : r ∈ ids) :
    precedes (shutdown_trace ids) ShutdownEvent.stopSyncService
      ShutdownEvent.abortListenTask
  ∧ precedes (shutdown_trace ids) ShutdownEvent.stopSyncService
      (ShutdownEvent.abortTimelineTask r)
  ∧ precedes (shutdown_trace ids) (ShutdownEvent.abortTimelineTask r)
      ShutdownEvent.awaitStateWaiter
  ∧ precedes (shutdown_trace ids) ShutdownEvent.abortListenTask
      ShutdownEvent.awaitStateWaiter := by
  obtain ⟨⟨k, hklt⟩, hk⟩ := List.mem_iff_get.mp hr
  have hk2 : ids.get? k = some r := by
    rw [List.get?_eq_get hklt, hk]
  have htimeline : (shutdown_trace ids).get? (k + 3)
      = some (ShutdownEvent.abortTimelineTask r) := by
    show (ids.map ShutdownEvent.abortTimelineTask
        ++ [ShutdownEvent.awaitStateWaiter]).get? k
      = some (ShutdownEvent.abortTimelineTask r)
    rw [List.get?_append (by simpa using hklt), List.get?_map, hk2]
    rfl
  have hwait : (shutdown_trace ids).get? (ids.length + 3)
      = some ShutdownEvent.awaitStateWaiter := by
    show (ids.map ShutdownEvent.abortTimelineTask
        ++ [ShutdownEvent.awaitStateWaiter]).get? ids.length
      = some ShutdownEvent.awaitStateWaiter
    rw [List.get?_append_right (by simp)]
    simp
  refine ⟨⟨1, 2, by omega, rfl, rfl⟩,
    ⟨1, k + 3, by omega, rfl, htimeline⟩,
    ⟨k + 3, ids.length + 3, by omega, htimeline, hwait⟩,
    ⟨2, ids.length + 3, by omega, rfl, hwait⟩⟩

/-- Witness for C3 with a single timeline task. -/
theorem c3_amended_stop_before_aborts_before_wait_witness :
    7 ∈ [7]
  ∧ (precedes (shutdown_trace [7]) ShutdownEvent.stopSyncService
        ShutdownEvent.abortListenTask
     ∧ precedes (shutdown_trace [7]) ShutdownEvent.stopSyncService
        (ShutdownEvent.abortTimelineTask 7)
     ∧ precedes (shutdown_trace [7]) (ShutdownEvent.abortTimelineTask 7)
        ShutdownEvent.awaitStateWaiter
     ∧ precedes (shutdown_trace [7]) ShutdownEvent.abortListenTask
        ShutdownEvent.awaitStateWaiter) :=
  ⟨by decide, c3_amended_stop_before_aborts_before_wait [7] 7 (by decide)⟩

/-- The rooms added by one new-room loop form a sublist of the processed
fresh ids (each added at most once, in order). -/
theorem room_loop_sublist {ρ : Type} (setup : ρ → RoomSetup) :
    ∀ l : List ρ, (room_loop setup l).1.Sublist l := by
  intro l
  induction l with
  | nil => simp [room_loop]
  | cons r rest ih =>
    simp only [room_loop]
    cases initRoom (setup r) with
    | skipped => exact ih.cons r
    | added => exact ih.cons₂ r
    | crashed => simp

/-- One diff round preserves the listen-task invariant: no room id was ever
spawned twice, and while the task is alive every spawned id is a key of
ui_rooms. -/
theorem listen_round_preserves_inv {ρ : Type} [DecidableEq ρ]
    (setup : ρ → RoomSetup) (st : ListenState ρ) (b : List ρ)
    (hb : b.Nodup) (h1 : st.spawned.Nodup)
    (h2 : st.alive = true → ∀ x ∈ st.spawned, x ∈ st.ui_rooms) :
    (listen_round setup st b).spawned.Nodup
    ∧ ((listen_round setup st b).alive = true →
        ∀ x ∈ (listen_round setup st b).spawned,
          x ∈ (listen_round setup st b).ui_rooms) := by
  by_cases ha : st.alive = true
  · have hsub := room_loop_sublist setup
      (b.filter (fun r => !st.ui_rooms.contains r))
    have hfresh : (b.filter (fun r => !st.ui_rooms.contains r)).Nodup :=
      hb.filter _
    have hnew : (room_loop setup
        (b.filter (fun r => !st.ui_rooms.contains r))).1.Nodup :=
      hfresh.sublist hsub
    have hdisj : ∀ x ∈ (room_loop setup
        (b.filter (fun r => !st.ui_rooms.contains r))).1,
        x ∉ st.ui_rooms := by
      intro x hx
      have hxf := hsub.subset hx
      have := List.of_mem_filter hxf
      simpa using this
    have happ : (st.spawned ++ (room_loop setup
        (b.filter (fun r => !st.ui_rooms.contains r))).1).Nodup := by
      refine h1.append hnew ?_
      intro x hx1 hx2
      exact hdisj x hx2 (h2 ha x hx1)
    simp only [listen_round, if_pos ha]
    by_cases hp : (room_loop setup
        (b.filter (fun r => !st.ui_rooms.contains r))).2 = true
    · simp only [if_pos hp]
      refine ⟨happ, fun _ x hx => ?_⟩
      rcases List.mem_append.mp hx with hxs | hxn
      · exact List.mem_append_left _ (h2 ha x hxs)
      · exact List.mem_append_right _ hxn
    · simp only [if_neg hp]
      exact ⟨happ, fun hfalse => by simp at hfalse⟩
  · simp only [listen_round, if_neg ha]
    exact ⟨h1, h2⟩

/-- The invariant holds after any sequence of diff rounds whose resolved
room lists are duplicate-free. -/
theorem listen_fold_preserves {ρ : Type} [DecidableEq ρ]
    (setup : ρ → RoomSetup) :
    ∀ (rounds : List (List ρ)) (st : ListenState ρ),
      (∀ b ∈ rounds, b.Nodup) → st.spawned.Nodup →
      (st.alive = true → ∀ x ∈ st.spawned, x ∈ st.ui_rooms) →
      (rounds.foldl (listen_round setup) st).spawned.Nodup := by
  intro rounds
  induction rounds with
  | nil => intro st H hs hu; exact hs
  | cons b bs ih =>
    intro st H hs hu
    have pres := listen_round_preserves_inv setup st b (H b (by simp)) hs hu
    simpa using ih (listen_round setup st b)
      (fun x hx => H x (by simp [hx])) pres.1 pres.2

/-- C2 (counterexample): a single diff round whose resolved room list holds
the same identifier twice starts two timeline consumer tasks for it: the
freshness filter consults only the ui_rooms clone taken before the loop, so
the second occurrence passes it too. -/
theorem c2_duplicate_id_spawns_two_consumers :
    ¬ (((([[0, 0]] : List (List Nat)).foldl
          (listen_round (fun _ => ⟨true, true, true⟩))
          (ListenState.initial Nat)).spawned).count 0 ≤ 1) := by
  decide

/-- C2 (amended): provided every diff round's resolved room list names each
identifier at most once, at most one timeline consumer task is ever started
per identifier over the program lifetime (an identifier already in the
ui_rooms map is filtered out on later rounds and never re-inserted). -/
theorem c2_amended_no_duplicate_consumers {ρ : Type} [DecidableEq ρ]
    (setup : ρ → RoomSetup) (rounds : List (List ρ)) (r : ρ)
    (H : ∀ b ∈ rounds, b.Nodup) :
    ((rounds.foldl (listen_round setup) (ListenState.initial ρ)).spawned).count r
      ≤ 1 := by
  have h := listen_fold_preserves setup rounds (ListenState.initial ρ) H
    (by simp [ListenState.initial]) (by simp [ListenState.initial])
  exact List.nodup_iff_count_le_one.mp h r

/-- Witness for C2 on two duplicate-free rounds re-listing room 1. -/
theorem c2_amended_no_duplicate_consumers_witness :
    (∀ b ∈ ([[0, 1], [1, 2]] : List (List Nat)), b.Nodup)
  ∧ ((([[0, 1], [1, 2]] : List (List Nat)).foldl
        (listen_round (fun _ => ⟨true, true, true⟩))
        (ListenState.initial Nat)).spawned).count 1 ≤ 1 :=
  ⟨by decide,
    c2_amended_no_duplicate_consumers (fun _ => ⟨true, true, true⟩)
      [[0, 1], [1, 2]] 1 (by decide)⟩
